import Mathlib

/-!
Verification model of the cross-window tab drag-and-drop subsystem of
lineCode/browser-laptop.

The development shallowly embeds three source files:

* the per-tab drag controller (`makeDraggableAndDetachable`, file
  `src/unnamed/part_000`): mouse-move handling, sort-change and detach
  detection, destination-index detection;
* the tab strip coordinator (`src/app/renderer/components/tabs/tabs.js`):
  `onDragChangeIndex` and the timed page-change debounce;
* the authoritative drag store reducer
  (`src/app/browser/reducers/tabDraggingReducer.js`): the `tabDragData`
  session state machine.

Coordinates are rationals (JS numbers used for pixel coordinates), window
ids are integers (`tabState.getWindowId` can report -1), tab ids are
naturals, indices are integers.  Asynchronous side effects scheduled by the
reducer (`setImmediate` bodies) are modelled as explicit effect lists
returned next to the new state.  External collaborators that a transition
queries (window positions, the window currently owning a tab, the live
cursor position, the buffer window) are modelled as an environment record;
the model follows the source in assuming the windows a transition touches
exist (the source treats a missing window as a fatal precondition
violation).
-/

namespace TabDragging

/-! Drag state store: data model (tabDraggingReducer.js) -/

/-- Payload of the drag-started action (`dragSourceData`), as read by the
reducer.  The three transient markers, the buffer-window bookkeeping and
the per-drag mutable fields are not part of a fresh payload. -/
structure DragSourceData where
  sourceTabId : Option Nat
  originalWindowId : Int
  currentWindowId : Option Int
  originClientX : ℚ
  originClientY : ℚ
  originScreenX : ℚ
  originScreenY : ℚ
  relativeXDragStart : ℚ
  relativeYDragStart : ℚ
  originatedFromSingleTabWindow : Bool
  frame : Nat
deriving Repr, DecidableEq

/-- The `tabDragData` entry of the app state (the DragSession).  Optional
fields model Immutable.Map keys that may be absent (`has` = `isSome`). -/
structure Session where
  sourceTabId : Option Nat
  originalWindowId : Int
  currentWindowId : Option Int
  originClientX : ℚ
  originClientY : ℚ
  originScreenX : ℚ
  originScreenY : ℚ
  relativeXDragStart : ℚ
  relativeYDragStart : ℚ
  originatedFromSingleTabWindow : Bool
  frame : Nat
  frameTopHeight : ℚ
  frameLeftWidth : ℚ
  bufferWindowId : Option Int := none
  dragDetachedWindowId : Option Int := none
  attachRequestedWindowId : Option Int := none
  detachToRequestedWindowId : Option Int := none
  detachedFromWindowId : Option Int := none
  detachRequestedWindowId : Option Int := none
  displayIndexRequested : Option Int := none
  dragWindowClientX : Option ℚ := none
  dragWindowClientY : Option ℚ := none
  detachedFromTabX : Option ℚ := none
  detachedFromTabY : Option ℚ := none
deriving Repr, DecidableEq

/-- `state.set(stateKey, dragSourceData.merge({frameTopHeight, frameLeftWidth}))`:
the session built by APP_TAB_DRAG_STARTED before the branch on
`originatedFromSingleTabWindow`. -/
def sessionOfSourceData (d : DragSourceData) (frameTopHeight frameLeftWidth : ℚ) : Session :=
  { sourceTabId := d.sourceTabId
    originalWindowId := d.originalWindowId
    currentWindowId := d.currentWindowId
    originClientX := d.originClientX
    originClientY := d.originClientY
    originScreenX := d.originScreenX
    originScreenY := d.originScreenY
    relativeXDragStart := d.relativeXDragStart
    relativeYDragStart := d.relativeYDragStart
    originatedFromSingleTabWindow := d.originatedFromSingleTabWindow
    frame := d.frame
    frameTopHeight := frameTopHeight
    frameLeftWidth := frameLeftWidth }

/-- External collaborators queried by reducer transitions.  `winPosition`
models `BrowserWindow.fromId(id).getPosition()`, `tabWindowId` models
`tabState.getWindowId(state, tabId)` (total: -1 for an unknown tab),
`clientPointAtCursor` models
`browserWindowUtil.getWindowClientPointAtCursor(win)`, `cursorScreenPoint`
models `screen.getCursorScreenPoint()`, `newBufferWindowId` the id of the
window returned by `windows.createBufferWindow()`, and
`dragBufferWindowId` the id of `windows.getDragBufferWindow()` (the model
assumes the buffer window exists where the source dereferences it
unconditionally). -/
structure Env where
  winPosition : Int → ℚ × ℚ
  tabWindowId : Option Nat → Int
  clientPointAtCursor : Int → ℚ × ℚ
  cursorScreenPoint : ℚ × ℚ
  newBufferWindowId : Int
  dragBufferWindowId : Int
  dragBufferWindowExists : Bool
  bufferWindowVisible : Bool

/-- Side effects scheduled by a reducer transition (the `setImmediate`
bodies and the synchronous window-orchestrator calls). -/
inductive Effect
  | positionBufferWindow (windowId : Int) (x y : ℚ)
  | setupDetachedWindow (windowId : Int)
  | restoreDetachedWindow (windowId : Int)
  | focusWindow (windowId : Int)
  | hideBufferWindow
  | enableBufferWindowMouseEvents
  | setTabIndex (tabId : Nat) (destinationFrameIndex : Int)
  | setWindowPosition (windowId : Int) (x y : Int)
  | setIgnoreMouseEvents (windowId : Int) (ignore : Bool)
  | markWindowAsDragBuffer (windowId : Int)
  | attachTabToWindow (tabId : Nat) (windowId : Int) (frameIndex : Int)
  | clearDragBufferMark
  | moveTabToBufferWindow (tabId : Option Nat) (windowId : Int)
deriving Repr, DecidableEq

/-- The store events the reducer switches on. -/
inductive Action
  | setState
  | dragStarted (d : DragSourceData)
  | dragCancelled
  | dragComplete
  | changeWindowDisplayIndex (senderWindowId destinationDisplayIndex destinationFrameIndex : Int)
      (requiresMouseUpdate : Bool)
  | tabAttached
  | singleTabMoved (tabX tabY : ℚ) (windowId : Int)
  | mouseOverOtherWindowTab (senderWindowId : Int) (frameIndex : Option Int)
  | detachRequested (tabX tabY : ℚ)
deriving Repr, DecidableEq

/-- One reducer transition: the new `tabDragData` entry and the scheduled
side effects.  A direct transcription of the `switch` in
tabDraggingReducer.js. -/
def appStep (env : Env) (state : Option Session) : Action → Option Session × List Effect
  | .setState => (none, [])
  | .dragStarted d =>
      let winPos := env.winPosition d.originalWindowId
      let frameTopHeight := d.originScreenY - d.originClientY - winPos.2
      let frameLeftWidth := d.originScreenX - d.originClientX - winPos.1
      let base := sessionOfSourceData d frameTopHeight frameLeftWidth
      if d.originatedFromSingleTabWindow = false then
        (some { base with bufferWindowId := some env.newBufferWindowId },
         [.positionBufferWindow env.newBufferWindowId winPos.1 winPos.2])
      else
        (some { base with dragDetachedWindowId := some d.originalWindowId },
         [.setupDetachedWindow d.originalWindowId])
  | .dragCancelled =>
      let restoreEffects :=
        match state with
        | some s =>
            match s.dragDetachedWindowId with
            | some w => [Effect.restoreDetachedWindow w]
            | none => []
        | none => []
      (none, restoreEffects ++
        (if env.dragBufferWindowExists ∧ env.bufferWindowVisible then [.hideBufferWindow] else []))
  | .dragComplete =>
      let restoreEffects :=
        match state with
        | some s =>
            match s.dragDetachedWindowId with
            | some w => [Effect.restoreDetachedWindow w, Effect.focusWindow w]
            | none => []
        | none => []
      (none, restoreEffects ++
        (if env.dragBufferWindowExists ∧ env.bufferWindowVisible then
          [.hideBufferWindow, .enableBufferWindowMouseEvents]
         else []))
  | .changeWindowDisplayIndex senderWindowId destinationDisplayIndex destinationFrameIndex
      requiresMouseUpdate =>
      match state with
      | none => (none, [])
      | some s =>
        match s.sourceTabId with
        | none => (some s, [])
        | some sourceTabId =>
          if s.attachRequestedWindowId.isSome ∨ s.detachToRequestedWindowId.isSome then
            (some s, [])
          else if s.currentWindowId ≠ some senderWindowId then
            (some s, [])
          else
            let s1 := { s with displayIndexRequested := some destinationDisplayIndex }
            let s2 :=
              if requiresMouseUpdate then
                let cursorWindowPoint :=
                  env.clientPointAtCursor (env.tabWindowId (some sourceTabId))
                { s1 with dragWindowClientX := some cursorWindowPoint.1
                          dragWindowClientY := some cursorWindowPoint.2 }
              else s1
            (some s2, [.setTabIndex sourceTabId destinationFrameIndex])
  | .tabAttached =>
      match state with
      | none => (none, [])
      | some s =>
        let currentWindowId := env.tabWindowId s.sourceTabId
        match s.attachRequestedWindowId with
        | some attachDestinationWindowId =>
            if currentWindowId ≠ attachDestinationWindowId then (some s, [])
            else
              let cursorWindowPoint := env.clientPointAtCursor currentWindowId
              (some { s with attachRequestedWindowId := none
                             displayIndexRequested := none
                             dragDetachedWindowId := none
                             currentWindowId := some currentWindowId
                             dragWindowClientX := some cursorWindowPoint.1
                             dragWindowClientY := some cursorWindowPoint.2 }, [])
        | none =>
          match s.detachToRequestedWindowId with
          | some detachDestWindowId =>
              if currentWindowId ≠ detachDestWindowId then (some s, [])
              else
                (some { s with detachedFromWindowId := none
                               detachToRequestedWindowId := none
                               displayIndexRequested := none
                               currentWindowId := some currentWindowId
                               dragDetachedWindowId := some currentWindowId }, [])
          | none => (some s, [])
  | .singleTabMoved tabX tabY windowId =>
      match state with
      | none => (none, [])
      | some s =>
        if s.attachRequestedWindowId.isSome then (some s, [])
        else if s.detachRequestedWindowId.isSome then (some s, [])
        else if s.detachToRequestedWindowId.isSome then (some s, [])
        else
          let actualWindowId := env.tabWindowId s.sourceTabId
          if s.currentWindowId ≠ some actualWindowId then (some s, [])
          else if s.currentWindowId ≠ some windowId then (some s, [])
          else
            let mouseScreenPos := env.cursorScreenPoint
            let windowY := ⌊mouseScreenPos.2 - tabY - s.frameTopHeight - s.relativeYDragStart⌋
            let windowX := ⌊mouseScreenPos.1 - tabX - s.frameLeftWidth - s.relativeXDragStart⌋
            (some s, [.setWindowPosition windowId windowX windowY,
                      .setIgnoreMouseEvents windowId true,
                      .setIgnoreMouseEvents windowId false])
  | .mouseOverOtherWindowTab senderWindowId frameIndex =>
      match state with
      | none => (none, [])
      | some s =>
        match s.sourceTabId with
        | none => (some s, [])
        | some sourceTabId =>
          if s.attachRequestedWindowId.isSome then (some s, [])
          else if s.detachToRequestedWindowId.isSome then (some s, [])
          else
            match s.dragDetachedWindowId with
            | none => (some s, [])
            | some detachedWindowId =>
              match frameIndex with
              | none => (some s, [])
              | some destinationFrameIndex =>
                let cursorWindowPoint := env.clientPointAtCursor senderWindowId
                (some { s with dragWindowClientX := some cursorWindowPoint.1
                               dragWindowClientY := some cursorWindowPoint.2
                               attachRequestedWindowId := some senderWindowId
                               bufferWindowId := some detachedWindowId },
                 [.markWindowAsDragBuffer detachedWindowId,
                  .restoreDetachedWindow detachedWindowId,
                  .focusWindow senderWindowId,
                  .attachTabToWindow sourceTabId senderWindowId destinationFrameIndex])
  | .detachRequested tabX tabY =>
      match state with
      | none => (none, [])
      | some s =>
        let currentWindowId := env.tabWindowId s.sourceTabId
        (some { s with detachedFromTabX := some tabX
                       detachedFromTabY := some tabY
                       detachedFromWindowId := some currentWindowId
                       detachToRequestedWindowId := some env.dragBufferWindowId },
         [.clearDragBufferMark,
          .moveTabToBufferWindow s.sourceTabId env.dragBufferWindowId])

/-- Run a sequence of store events; the environment may differ per event
(cursor and window positions move between events). -/
def appRun : Option Session → List (Env × Action) → Option Session
  | st, [] => st
  | st, p :: rest => appRun (appStep p.1 st p.2).1 rest

/-- `tabDragData` entry present. -/
def sessionExists (st : Option Session) : Bool := st.isSome

/-- Events whose transition deletes the session. -/
def removesSession : Action → Bool
  | .setState => true
  | .dragCancelled => true
  | .dragComplete => true
  | _ => false

/-- Events whose transition creates (replaces) the session. -/
def createsSession : Action → Bool
  | .dragStarted _ => true
  | _ => false

/-- A `tabDragData` entry the store can actually reach from the no-session
state by some sequence of events. -/
def ReachableState (st : Option Session) : Prop :=
  ∃ evs : List (Env × Action), appRun none evs = st

/-! Per-window drag controller (src/unnamed/part_000) -/

def DRAG_DETACH_PX_THRESHOLD_X : ℚ := 60
def DRAG_DETACH_MS_TIME_BUFFER : ℚ := 0
def DRAG_DETACH_PX_THRESHOLD_INITIAL : ℚ := 44
def DRAG_DETACH_PX_THRESHOLD_POSTSORT : ℚ := 80
def DRAG_PAGEMOVE_PX_THRESHOLD : ℚ := 38

/-- A raw mousemove event, with the fields the drag controller reads.  On a
genuine `MouseEvent`, `x`/`y` coincide with `clientX`/`clientY`. -/
structure MouseEvt where
  x : ℚ
  y : ℚ
  screenX : ℚ
  screenY : ℚ
  clientX : ℚ
  clientY : ℚ
deriving Repr, DecidableEq

/-- The part of an event the drag handlers consume after translation: the
synthetic event built for a forwarded `sendMouseMoveInput` carries only
`clientX`/`clientY`. -/
structure TranslatedEvt where
  clientX : ℚ
  clientY : ℚ
deriving Repr, DecidableEq

/-- `translateEventFromSendMouseMoveInput`: an event whose `x` is exactly 1
and whose `y` is exactly 99 is reinterpreted as a forwarded event, its
client coordinates replaced by its screen coordinates. -/
def translateEventFromSendMouseMoveInput (receivedEvent : MouseEvt) : TranslatedEvt :=
  if receivedEvent.x = 1 ∧ receivedEvent.y = 99 then
    { clientX := receivedEvent.screenX, clientY := receivedEvent.screenY }
  else
    { clientX := receivedEvent.clientX, clientY := receivedEvent.clientY }

/-- `this.parentClientRect`: geometry of the tab strip, as captured by
`evaluateDraggingItemAndParentSize`. -/
structure ParentRect where
  left : ℚ
  top : ℚ
  width : ℚ
  height : ℚ
  windowWidth : ℚ
deriving Repr, DecidableEq

/-- The props and measured geometry a mounted dragging tab works with
(assumed measured: the source returns early from sort detection while
`parentClientRect`/`draggingTabWidth` are still unset). -/
structure CtrlCfg where
  dragProcessMoves : Bool
  dragSingleTab : Bool
  dragCanDetach : Bool
  relativeXDragStart : ℚ
  displayIndex : Int
  firstTabDisplayIndex : Int
  displayedTabCount : Int
  totalTabCount : Int
  rect : ParentRect
  draggingTabWidth : ℚ
  nonDraggingTabWidth : Option ℚ
  singleTabPosition : ℚ × ℚ
deriving Repr, DecidableEq

/-- Mutable instance state of a dragging tab.  `draggingDetachTimeout`
models the timeout id being set (it stays truthy after the timeout fires);
`pendingDetachTabLeft` models an armed, not yet fired detach-confirmation
timer together with the `tabLeft` value its callback captured. -/
structure Ctrl where
  draggingDetachThreshold : ℚ
  draggingDetachTimeout : Bool
  pendingDetachTabLeft : Option ℚ
  hasRequestedDetach : Bool
  suspendOrderChangeUntilUpdate : Bool
deriving Repr, DecidableEq

/-- Instance state right after `attachDragSortHandlers`. -/
def initialCtrl : Ctrl :=
  { draggingDetachThreshold := DRAG_DETACH_PX_THRESHOLD_INITIAL
    draggingDetachTimeout := false
    pendingDetachTabLeft := none
    hasRequestedDetach := false
    suspendOrderChangeUntilUpdate := false }

/-- Intents the controller emits towards its consumer
(`onRequestDetach`, `onDragChangeIndex`, `onDragMoveSingleItem`). -/
inductive Intent
  | requestDetach (tabLeft top : ℚ)
  | requestIndexChange (destinationIndex : Int)
  | moveSingleItem (x y : ℚ)
deriving Repr, DecidableEq

/-- The `isOutsideBounds` test of `onTabDraggingMouseMoveDetectSortChange`:
outside the strip horizontally by more than `DRAG_DETACH_PX_THRESHOLD_X`,
or vertically by more than the current detach threshold. -/
abbrev isOutsideBounds (cfg : CtrlCfg) (threshold clientX clientY : ℚ) : Prop :=
  clientX < 0 - DRAG_DETACH_PX_THRESHOLD_X ∨
  clientX > cfg.rect.windowWidth + DRAG_DETACH_PX_THRESHOLD_X ∨
  clientY < cfg.rect.top - threshold ∨
  clientY > cfg.rect.top + cfg.rect.height + threshold

/-- `detectDragIndexPosition`: destination display index for a dragged tab
whose left edge sits at `tabLeft` relative to the strip. -/
def detectDragIndexPosition (totalTabCount firstTabDisplayIndex displayedTabCount : Int)
    (parentWidth tabWidth dragTabWidth tabLeft : ℚ) : Int :=
  let lastIndex := totalTabCount - 1
  let tabRight := tabLeft + dragTabWidth
  if tabLeft < 0 - DRAG_PAGEMOVE_PX_THRESHOLD then
    max 0 (firstTabDisplayIndex - 1)
  else if tabRight > parentWidth + DRAG_PAGEMOVE_PX_THRESHOLD then
    min lastIndex (firstTabDisplayIndex + displayedTabCount)
  else
    let groupIndexOfTabLeft := ⌊(tabLeft - tabWidth / 2) / tabWidth⌋ + 1
    max 0 (min (totalTabCount - 1) (firstTabDisplayIndex + groupIndexOfTabLeft))

/-- `onTabDraggingMouseMoveDetectSortChange`: detach-threshold detection
followed by destination-index detection.  `consumerPauses` is the Boolean
the consumer (`props.onDragChangeIndex`) returns for this invocation. -/
def detectSortChange (cfg : CtrlCfg) (c : Ctrl) (clientX clientY : ℚ)
    (consumerPauses : Bool) : Ctrl × List Intent :=
  if c.suspendOrderChangeUntilUpdate then (c, [])
  else
    let dragTabWidth := cfg.draggingTabWidth
    let tabWidth := cfg.nonDraggingTabWidth.getD cfg.draggingTabWidth
    let tabLeft := clientX - cfg.rect.left - cfg.relativeXDragStart
    if cfg.dragCanDetach = true ∧ isOutsideBounds cfg c.draggingDetachThreshold clientX clientY then
      (if c.draggingDetachTimeout then c
       else { c with draggingDetachTimeout := true, pendingDetachTabLeft := some tabLeft }, [])
    else
      let c1 :=
        if cfg.dragCanDetach = true ∧ c.draggingDetachTimeout = true then
          { c with draggingDetachTimeout := false, pendingDetachTabLeft := none }
        else c
      let destinationIndex := detectDragIndexPosition cfg.totalTabCount cfg.firstTabDisplayIndex
        cfg.displayedTabCount cfg.rect.width tabWidth dragTabWidth tabLeft
      let c2 := if consumerPauses then { c1 with suspendOrderChangeUntilUpdate := true } else c1
      let c3 :=
        if cfg.displayIndex ≠ destinationIndex then
          { c2 with draggingDetachThreshold := DRAG_DETACH_PX_THRESHOLD_POSTSORT }
        else c2
      (c3, [Intent.requestIndexChange destinationIndex])

/-- The detach-confirmation timeout firing: emits the detach-requested
intent and stops further sort processing (`hasRequestedDetach`).  The
timeout id is not cleared by the callback in the source, so
`draggingDetachTimeout` stays set. -/
def fireDetachTimer (cfg : CtrlCfg) (c : Ctrl) : Ctrl × List Intent :=
  match c.pendingDetachTabLeft with
  | none => (c, [])
  | some tabLeft =>
      ({ c with hasRequestedDetach := true, pendingDetachTabLeft := none },
       [Intent.requestDetach tabLeft cfg.rect.top])

/-- Body of `onTabDraggingMouseMove` after event translation (the visual
`dragTab` translation updates no drag state and emits no intent, and is
not modelled). -/
def onTabDraggingMouseMoveTranslated (cfg : CtrlCfg) (c : Ctrl) (e : TranslatedEvt)
    (consumerPauses : Bool) : Ctrl × List Intent :=
  if cfg.dragProcessMoves then
    if !cfg.dragSingleTab then
      if !c.hasRequestedDetach then
        detectSortChange cfg c e.clientX e.clientY consumerPauses
      else (c, [])
    else
      (c, [Intent.moveSingleItem cfg.singleTabPosition.1 cfg.singleTabPosition.2])
  else (c, [])

/-- `onTabDraggingMouseMove`: every received event is first passed through
`translateEventFromSendMouseMoveInput`, then processed. -/
def onTabDraggingMouseMove (cfg : CtrlCfg) (c : Ctrl) (e : MouseEvt)
    (consumerPauses : Bool) : Ctrl × List Intent :=
  onTabDraggingMouseMoveTranslated cfg c (translateEventFromSendMouseMoveInput e) consumerPauses

/-- Events driving a dragging tab's controller: a mousemove (with the
consumer's reply), the detach-confirmation timer firing, and the
`componentDidUpdate` path that observes a completed index change. -/
inductive CtrlEvent
  | move (e : MouseEvt) (consumerPauses : Bool)
  | fireDetach
  | indexUpdated
deriving Repr, DecidableEq

def ctrlStep (cfg : CtrlCfg) (c : Ctrl) : CtrlEvent → Ctrl × List Intent
  | .move e consumerPauses => onTabDraggingMouseMove cfg c e consumerPauses
  | .fireDetach => fireDetachTimer cfg c
  | .indexUpdated => ({ c with suspendOrderChangeUntilUpdate := false }, [])

def ctrlRun (cfg : CtrlCfg) : Ctrl → List CtrlEvent → Ctrl × List Intent
  | c, [] => (c, [])
  | c, ev :: rest =>
      let r := ctrlStep cfg c ev
      let r2 := ctrlRun cfg r.1 rest
      (r2.1, r.2 ++ r2.2)

/-- Number of detach-requested intents in an intent list. -/
def detachIntentCount (intents : List Intent) : Nat :=
  (intents.filter fun i => match i with | .requestDetach _ _ => true | _ => false).length

/-! Tab strip coordinator (tabs.js) -/

def DRAG_PAGEMOVE_MS_TIME_BUFFER : ℚ := 1000

/-- Window actions `onDragChangeIndex` and the page-move timeout dispatch. -/
inductive WinAction
  | changeGroupDisplayIndex (requiresMouseUpdate : Bool) (destinationIndex : Int)
  | pausingForPageChange (pageIndex : Int)
  | notPausingForPageChange
deriving Repr, DecidableEq

/-- The pending `draggingMoveTabPageTimeout`: the destination index its
callback captured and the time at which it fires. -/
structure PendingPageMove where
  destinationIndex : Int
  deadline : ℚ
deriving Repr, DecidableEq

def clearDragPageIndexMoveTimeout :
    Option PendingPageMove → Option PendingPageMove × List WinAction
  | none => (none, [])
  | some _ => (none, [WinAction.notPausingForPageChange])

/-- `beginOrContinueTimeoutForDragPageIndexMove`: announces the pause when
no timer is pending, and keeps an already pending timer (with its original
destination) rather than restarting it. -/
def beginOrContinueTimeoutForDragPageIndexMove (now : ℚ)
    (destinationIndex currentTabPageIndex firstTabDisplayIndex : Int) :
    Option PendingPageMove → Option PendingPageMove × List WinAction
  | none =>
      (some { destinationIndex := destinationIndex
              deadline := now + DRAG_PAGEMOVE_MS_TIME_BUFFER },
       [WinAction.pausingForPageChange
         (currentTabPageIndex + (if destinationIndex > firstTabDisplayIndex then 1 else -1))])
  | some q => (some q, [])

/-- Props `onDragChangeIndex` reads. -/
structure TabsProps where
  displayIndex : Int
  firstTabDisplayIndex : Int
  displayedTabCount : Int
  totalTabCount : Int
  tabPageIndex : Int
  parentWidth : ℚ
deriving Repr, DecidableEq

structure DragIndexResult where
  shouldPauseDraggingUntilUpdate : Bool
  pending : Option PendingPageMove
  actions : List WinAction
deriving Repr, DecidableEq

/-- `onDragChangeIndex` of tabs.js: immediate within-page moves, boundary
clamping plus timed page-change for out-of-page destinations. -/
def onDragChangeIndex (now : ℚ) (props : TabsProps) (destinationIndex : Int)
    (pending : Option PendingPageMove) : DragIndexResult :=
  if props.displayIndex ≠ destinationIndex then
    let lastIndexOnCurrentPage := props.firstTabDisplayIndex + props.displayedTabCount - 1
    let firstIndexOnCurrentPage := props.firstTabDisplayIndex
    let isDraggingToPreviousPage := destinationIndex < firstIndexOnCurrentPage
    let isDraggingToNextPage := destinationIndex > lastIndexOnCurrentPage
    if isDraggingToPreviousPage ∨ isDraggingToNextPage then
      let immediate :=
        if isDraggingToNextPage ∧ props.displayIndex ≠ lastIndexOnCurrentPage then
          (true, [WinAction.changeGroupDisplayIndex false lastIndexOnCurrentPage])
        else if isDraggingToPreviousPage ∧ props.displayIndex ≠ firstIndexOnCurrentPage then
          (true, [WinAction.changeGroupDisplayIndex false firstIndexOnCurrentPage])
        else (false, ([] : List WinAction))
      let t := beginOrContinueTimeoutForDragPageIndexMove now destinationIndex
        props.tabPageIndex firstIndexOnCurrentPage pending
      { shouldPauseDraggingUntilUpdate := immediate.1
        pending := t.1
        actions := immediate.2 ++ t.2 }
    else
      let t := clearDragPageIndexMoveTimeout pending
      { shouldPauseDraggingUntilUpdate := true
        pending := t.1
        actions := t.2 ++ [WinAction.changeGroupDisplayIndex false destinationIndex] }
  else
    let t := clearDragPageIndexMoveTimeout pending
    { shouldPauseDraggingUntilUpdate := false, pending := t.1, actions := t.2 }

/-- The page-move timeout firing at time `now`: only a pending timer whose
deadline has passed fires; its callback clears the timer (announcing the
end of the pause) and dispatches the captured destination index. -/
def fireDragPageTimeout (now : ℚ) :
    Option PendingPageMove → Option PendingPageMove × List WinAction
  | none => (none, [])
  | some q =>
      if q.deadline ≤ now then
        (none, [WinAction.notPausingForPageChange,
                WinAction.changeGroupDisplayIndex false q.destinationIndex])
      else (some q, [])

/-- The page layout a window's coordinator is rendering (fixed while the
page does not change). -/
structure PageLayout where
  firstTabDisplayIndex : Int
  displayedTabCount : Int
  totalTabCount : Int
  tabPageIndex : Int
  parentWidth : ℚ
deriving Repr, DecidableEq

/-- Events driving the coordinator: a pointer move (index detection feeding
`onDragChangeIndex`) or the page-move timer firing. -/
inductive CoordEvent
  | pointerMove (now : ℚ) (displayIndex : Int) (tabWidth dragTabWidth tabLeft : ℚ)
  | timerFires (now : ℚ)
deriving Repr, DecidableEq

def coordStep (page : PageLayout) (pending : Option PendingPageMove) :
    CoordEvent → Option PendingPageMove × List WinAction
  | .pointerMove now displayIndex tabWidth dragTabWidth tabLeft =>
      let destinationIndex := detectDragIndexPosition page.totalTabCount
        page.firstTabDisplayIndex page.displayedTabCount page.parentWidth
        tabWidth dragTabWidth tabLeft
      let r := onDragChangeIndex now
        { displayIndex := displayIndex
          firstTabDisplayIndex := page.firstTabDisplayIndex
          displayedTabCount := page.displayedTabCount
          totalTabCount := page.totalTabCount
          tabPageIndex := page.tabPageIndex
          parentWidth := page.parentWidth }
        destinationIndex pending
      (r.pending, r.actions)
  | .timerFires now => fireDragPageTimeout now pending

def coordRun (page : PageLayout) :
    Option PendingPageMove → List CoordEvent → Option PendingPageMove × List WinAction
  | pending, [] => (pending, [])
  | pending, ev :: rest =>
      let r := coordStep page pending ev
      let r2 := coordRun page r.1 rest
      (r2.1, r.2 ++ r2.2)

/-! Session lifecycle helpers -/

/-- Effect of one transition on session existence: only DragStarted
creates the session, only SET_STATE / DragCancelled / DragComplete delete
it, and every other event preserves its presence. -/
theorem sessionExists_appStep (env : Env) (st : Option Session) (a : Action) :
    sessionExists (appStep env st a).1 =
      (createsSession a || (!removesSession a && sessionExists st)) := by
  cases a <;> cases st <;>
    first
      | rfl
      | (simp only [appStep]
         repeat' split
         all_goals rfl)

theorem appRun_concat (st : Option Session) (l : List (Env × Action)) (p : Env × Action) :
    appRun st (l ++ [p]) = (appStep p.1 (appRun st l) p.2).1 := by
  induction l generalizing st with
  | nil => rfl
  | cons q l ih =>
      simp only [List.cons_append, appRun]
      exact ih (appStep q.1 st q.2).1

/-- A trace ending in a session-removing event allows no split whose tail
after a DragStarted is free of removing events. -/
theorem no_creating_split_of_remover (l : List (Env × Action)) (e : Env) (a : Action)
    (hrem : removesSession a = true) :
    ¬ ∃ l1 e1 d l2, l ++ [(e, a)] = l1 ++ (e1, Action.dragStarted d) :: l2 ∧
        ∀ p ∈ l2, removesSession p.2 = false := by
  rintro ⟨l1, e1, d, l2, heq, hfree⟩
  rcases l2.eq_nil_or_concat with rfl | ⟨l2t, q, rfl⟩
  · have h2 := (List.append_inj' heq rfl).2
    simp only [List.cons.injEq, Prod.mk.injEq, and_true] at h2
    rw [h2.2] at hrem
    simp [removesSession] at hrem
  · rw [List.concat_eq_append,
      show l1 ++ (e1, Action.dragStarted d) :: (l2t ++ [q]) =
        (l1 ++ (e1, Action.dragStarted d) :: l2t) ++ [q] by simp] at heq
    have h2 := (List.append_inj' heq rfl).2
    simp only [List.cons.injEq, and_true] at h2
    have hq := hfree q (by simp [List.concat_eq_append])
    rw [← h2] at hq
    rw [hrem] at hq
    cases hq

/-- Appending a neutral event (neither creating nor removing) preserves
whether a trace has a creating split with a removal-free tail. -/
theorem creating_split_concat_neutral (l : List (Env × Action)) (e : Env) (a : Action)
    (hc : createsSession a = false) (hr : removesSession a = false) :
    (∃ l1 e1 d l2, l ++ [(e, a)] = l1 ++ (e1, Action.dragStarted d) :: l2 ∧
        ∀ p ∈ l2, removesSession p.2 = false) ↔
      (∃ l1 e1 d l2, l = l1 ++ (e1, Action.dragStarted d) :: l2 ∧
        ∀ p ∈ l2, removesSession p.2 = false) := by
  constructor
  · rintro ⟨l1, e1, d, l2, heq, hfree⟩
    rcases l2.eq_nil_or_concat with rfl | ⟨l2t, q, rfl⟩
    · have h2 := (List.append_inj' heq rfl).2
      simp only [List.cons.injEq, Prod.mk.injEq, and_true] at h2
      rw [h2.2] at hc
      simp [createsSession] at hc
    · rw [List.concat_eq_append,
        show l1 ++ (e1, Action.dragStarted d) :: (l2t ++ [q]) =
          (l1 ++ (e1, Action.dragStarted d) :: l2t) ++ [q] by simp] at heq
      have h12 := List.append_inj' heq rfl
      exact ⟨l1, e1, d, l2t, h12.1,
        fun p hp => hfree p (by simp [List.concat_eq_append, hp])⟩
  · rintro ⟨l1, e1, d, l2, rfl, hfree⟩
    refine ⟨l1, e1, d, l2 ++ [(e, a)], by simp, fun p hp => ?_⟩
    rcases List.mem_append.mp hp with hp | hp
    · exact hfree p hp
    · simp only [List.mem_singleton] at hp
      rw [hp]
      exact hr

/-! C2: the DragSession lifecycle over arbitrary event sequences -/

/-- C2.  Over every sequence of store events (each delivered against its
own environment), the `tabDragData` session exists if and only if the
sequence contains a DragStarted event followed by no session-removing
event — where, per the claim, the removing events are exactly
DragCancelled, DragComplete and the APP_SET_STATE restart-safety path, and
DragStarted is the only event that creates the session. -/
theorem dragSession_lifecycle (evs : List (Env × Action)) :
    sessionExists (appRun none evs) = true ↔
      ∃ l1 e d l2, evs = l1 ++ (e, Action.dragStarted d) :: l2 ∧
        ∀ p ∈ l2, removesSession p.2 = false := by
  induction evs using List.reverseRecOn with
  | nil =>
      constructor
      · intro h
        simp [appRun, sessionExists] at h
      · rintro ⟨l1, e, d, l2, heq, -⟩
        exact absurd heq (by simp)
  | append_singleton l p ih =>
      obtain ⟨e, a⟩ := p
      rw [appRun_concat, sessionExists_appStep]
      cases hc : createsSession a with
      | true =>
          obtain ⟨d, rfl⟩ : ∃ d, a = Action.dragStarted d := by
            cases a <;> simp_all [createsSession]
          simp only [createsSession, Bool.true_or]
          exact ⟨fun _ => ⟨l, e, d, [], by simp, by simp⟩, fun _ => trivial⟩
      | false =>
          cases hr : removesSession a with
          | true =>
              simp only [hc, hr, Bool.false_or, Bool.not_true, Bool.false_and]
              constructor
              · intro h
                simp at h
              · intro h
                exact absurd h (no_creating_split_of_remover l e a hr)
          | false =>
              simp only [hc, hr, Bool.false_or, Bool.not_false, Bool.true_and]
              rw [ih]
              exact (creating_split_concat_neutral l e a hc hr).symm

/-! C3: stale-window guard of ChangeDisplayIndexRequested -/

/-- C3.  For every state with an active DragSession and every
ChangeDisplayIndexRequested action whose `senderWindowId` differs from the
session's `currentWindowId`, the reducer returns the state unchanged (no
session field is mutated, in particular not `displayIndexRequested` or
`dragWindowClientX`/`Y`) and schedules no effect, in particular no tab
reindex. -/
theorem staleWindow_changeIndex_noop (env : Env) (s : Session)
    (senderWindowId destinationDisplayIndex destinationFrameIndex : Int)
    (requiresMouseUpdate : Bool)
    (hsender : s.currentWindowId ≠ some senderWindowId) :
    appStep env (some s)
      (.changeWindowDisplayIndex senderWindowId destinationDisplayIndex
        destinationFrameIndex requiresMouseUpdate) = (some s, []) := by
  simp only [appStep]
  cases hst : s.sourceTabId with
  | none => rfl
  | some tabId =>
    dsimp only
    by_cases hm : s.attachRequestedWindowId.isSome ∨ s.detachToRequestedWindowId.isSome
    · rw [if_pos hm]
    · rw [if_neg hm, if_pos hsender]

/-- Witness for C3 at a concrete session and action. -/
theorem staleWindow_changeIndex_noop_witness :
    appStep
      { winPosition := fun _ => (0, 0), tabWindowId := fun _ => 1
        clientPointAtCursor := fun _ => (0, 0), cursorScreenPoint := (0, 0)
        newBufferWindowId := 7, dragBufferWindowId := 7
        dragBufferWindowExists := true, bufferWindowVisible := false }
      (some { sourceTabId := some 3, originalWindowId := 1, currentWindowId := some 1
              originClientX := 10, originClientY := 20, originScreenX := 110
              originScreenY := 120, relativeXDragStart := 5, relativeYDragStart := 6
              originatedFromSingleTabWindow := false, frame := 0
              frameTopHeight := 100, frameLeftWidth := 100 })
      (.changeWindowDisplayIndex 2 4 4 false) =
      (some { sourceTabId := some 3, originalWindowId := 1, currentWindowId := some 1
              originClientX := 10, originClientY := 20, originScreenX := 110
              originScreenY := 120, relativeXDragStart := 5, relativeYDragStart := 6
              originatedFromSingleTabWindow := false, frame := 0
              frameTopHeight := 100, frameLeftWidth := 100 }, []) :=
  staleWindow_changeIndex_noop _ _ 2 4 4 false (by decide)

/-! C4: the three requested markers defer index-change and move events -/

/-- In any state the store can produce, a `detachedFromWindowId` marker is
always accompanied by a `detachToRequestedWindowId` marker (they are set
together by DetachRequested and cleared together by TabAttached). -/
def detachMarkerConsistent : Option Session → Prop
  | none => True
  | some s => s.detachedFromWindowId.isSome = true → s.detachToRequestedWindowId.isSome = true

theorem detachMarkerConsistent_appStep (env : Env) (st : Option Session) (a : Action)
    (h : detachMarkerConsistent st) : detachMarkerConsistent (appStep env st a).1 := by
  cases a <;> cases st <;>
    first
      | trivial
      | (simp only [appStep]
         repeat' split
         all_goals simp_all [detachMarkerConsistent, sessionOfSourceData])

theorem appRun_detachMarkerConsistent (evs : List (Env × Action)) :
    ∀ st, detachMarkerConsistent st → detachMarkerConsistent (appRun st evs) := by
  induction evs with
  | nil => exact fun st h => h
  | cons p rest ih =>
      exact fun st h => ih _ (detachMarkerConsistent_appStep p.1 st p.2 h)

theorem reachable_detachMarkerConsistent (st : Option Session) (h : ReachableState st) :
    detachMarkerConsistent st := by
  obtain ⟨evs, rfl⟩ := h
  exact appRun_detachMarkerConsistent evs none trivial

/-- C4.  Whenever any of the three requested markers
(`attachRequestedWindowId`, `detachToRequestedWindowId`,
`detachedFromWindowId`) is present on a session the store reached, a
ChangeDisplayIndexRequested and a SingleTabWindowMoved event are ignored:
the reducer leaves the session unchanged and schedules neither a tab
reindex nor a window move.  (The reducer tests only the first two markers;
on reachable states `detachedFromWindowId` never occurs without
`detachToRequestedWindowId`.) -/
theorem pending_markers_defer_events (env : Env) (s : Session)
    (hreach : ReachableState (some s))
    (hmark : s.attachRequestedWindowId.isSome ∨ s.detachToRequestedWindowId.isSome ∨
      s.detachedFromWindowId.isSome)
    (senderWindowId destinationDisplayIndex destinationFrameIndex : Int)
    (requiresMouseUpdate : Bool) (tabX tabY : ℚ) (windowId : Int) :
    appStep env (some s)
      (.changeWindowDisplayIndex senderWindowId destinationDisplayIndex
        destinationFrameIndex requiresMouseUpdate) = (some s, []) ∧
    appStep env (some s) (.singleTabMoved tabX tabY windowId) = (some s, []) := by
  have hcons := reachable_detachMarkerConsistent _ hreach
  have hmark2 : s.attachRequestedWindowId.isSome = true ∨
      s.detachToRequestedWindowId.isSome = true := by
    rcases hmark with h | h | h
    · exact Or.inl h
    · exact Or.inr h
    · exact Or.inr (hcons h)
  constructor
  · simp only [appStep]
    cases hst : s.sourceTabId with
    | none => rfl
    | some tabId =>
      dsimp only
      rw [if_pos hmark2]
  · simp only [appStep]
    rcases hmark2 with h | h
    · rw [if_pos h]
    · by_cases h1 : s.attachRequestedWindowId.isSome
      · rw [if_pos h1]
      · rw [if_neg h1]
        by_cases h2 : s.detachRequestedWindowId.isSome
        · rw [if_pos h2]
        · rw [if_neg h2, if_pos h]

/-- Witness for C4 at a state reached by DragStarted followed by
DetachRequested (so both detach markers are present). -/
theorem pending_markers_defer_events_witness :
    appStep
      { winPosition := fun _ => (30, 40), tabWindowId := fun _ => 2
        clientPointAtCursor := fun _ => (0, 0), cursorScreenPoint := (0, 0)
        newBufferWindowId := 7, dragBufferWindowId := 9
        dragBufferWindowExists := true, bufferWindowVisible := false }
      (some { sourceTabId := some 3, originalWindowId := 1, currentWindowId := some 1
              originClientX := 10, originClientY := 20, originScreenX := 110
              originScreenY := 120, relativeXDragStart := 5, relativeYDragStart := 6
              originatedFromSingleTabWindow := true, frame := 0
              frameTopHeight := 60, frameLeftWidth := 70
              dragDetachedWindowId := some 1
              detachToRequestedWindowId := some 9, detachedFromWindowId := some 2
              detachedFromTabX := some 11, detachedFromTabY := some 12 })
      (.changeWindowDisplayIndex 1 4 4 false) =
      (some { sourceTabId := some 3, originalWindowId := 1, currentWindowId := some 1
              originClientX := 10, originClientY := 20, originScreenX := 110
              originScreenY := 120, relativeXDragStart := 5, relativeYDragStart := 6
              originatedFromSingleTabWindow := true, frame := 0
              frameTopHeight := 60, frameLeftWidth := 70
              dragDetachedWindowId := some 1
              detachToRequestedWindowId := some 9, detachedFromWindowId := some 2
              detachedFromTabX := some 11, detachedFromTabY := some 12 }, []) ∧
    appStep
      { winPosition := fun _ => (30, 40), tabWindowId := fun _ => 2
        clientPointAtCursor := fun _ => (0, 0), cursorScreenPoint := (0, 0)
        newBufferWindowId := 7, dragBufferWindowId := 9
        dragBufferWindowExists := true, bufferWindowVisible := false }
      (some { sourceTabId := some 3, originalWindowId := 1, currentWindowId := some 1
              originClientX := 10, originClientY := 20, originScreenX := 110
              originScreenY := 120, relativeXDragStart := 5, relativeYDragStart := 6
              originatedFromSingleTabWindow := true, frame := 0
              frameTopHeight := 60, frameLeftWidth := 70
              dragDetachedWindowId := some 1
              detachToRequestedWindowId := some 9, detachedFromWindowId := some 2
              detachedFromTabX := some 11, detachedFromTabY := some 12 })
      (.singleTabMoved 11 12 1) =
      (some { sourceTabId := some 3, originalWindowId := 1, currentWindowId := some 1
              originClientX := 10, originClientY := 20, originScreenX := 110
              originScreenY := 120, relativeXDragStart := 5, relativeYDragStart := 6
              originatedFromSingleTabWindow := true, frame := 0
              frameTopHeight := 60, frameLeftWidth := 70
              dragDetachedWindowId := some 1
              detachToRequestedWindowId := some 9, detachedFromWindowId := some 2
              detachedFromTabX := some 11, detachedFromTabY := some 12 }, []) :=
  pending_markers_defer_events
    { winPosition := fun _ => (30, 40), tabWindowId := fun _ => 2
      clientPointAtCursor := fun _ => (0, 0), cursorScreenPoint := (0, 0)
      newBufferWindowId := 7, dragBufferWindowId := 9
      dragBufferWindowExists := true, bufferWindowVisible := false }
    { sourceTabId := some 3, originalWindowId := 1, currentWindowId := some 1
      originClientX := 10, originClientY := 20, originScreenX := 110
      originScreenY := 120, relativeXDragStart := 5, relativeYDragStart := 6
      originatedFromSingleTabWindow := true, frame := 0
      frameTopHeight := 60, frameLeftWidth := 70
      dragDetachedWindowId := some 1
      detachToRequestedWindowId := some 9, detachedFromWindowId := some 2
      detachedFromTabX := some 11, detachedFromTabY := some 12 }
    ⟨[({ winPosition := fun _ => (30, 40), tabWindowId := fun _ => 2
         clientPointAtCursor := fun _ => (0, 0), cursorScreenPoint := (0, 0)
         newBufferWindowId := 7, dragBufferWindowId := 9
         dragBufferWindowExists := true, bufferWindowVisible := false },
       Action.dragStarted
         { sourceTabId := some 3, originalWindowId := 1, currentWindowId := some 1
           originClientX := 10, originClientY := 20, originScreenX := 110
           originScreenY := 120, relativeXDragStart := 5, relativeYDragStart := 6
           originatedFromSingleTabWindow := true, frame := 0 }),
      ({ winPosition := fun _ => (30, 40), tabWindowId := fun _ => 2
         clientPointAtCursor := fun _ => (0, 0), cursorScreenPoint := (0, 0)
         newBufferWindowId := 7, dragBufferWindowId := 9
         dragBufferWindowExists := true, bufferWindowVisible := false },
       Action.detachRequested 11 12)],
      by norm_num [appRun, appStep, sessionOfSourceData]⟩
    (Or.inr (Or.inl (by decide))) 1 4 4 false 11 12 1

/-! C5: idempotence of an already-applied TabAttached confirmation -/

/-- C5.  Re-delivering a TabAttached confirmation that has already been
applied — the attach/detach markers are already cleared and the tab's
current window already matches the session's `currentWindowId` — is a
no-op: the reducer returns the state unchanged and schedules nothing. -/
theorem tabAttached_redelivery_noop (env : Env) (s : Session)
    (hattach : s.attachRequestedWindowId = none)
    (hdetach : s.detachToRequestedWindowId = none)
    (_hmatch : s.currentWindowId = some (env.tabWindowId s.sourceTabId)) :
    appStep env (some s) .tabAttached = (some s, []) := by
  simp only [appStep, hattach, hdetach]

/-- Witness for C5 at a concrete already-applied state. -/
theorem tabAttached_redelivery_noop_witness :
    appStep
      { winPosition := fun _ => (0, 0), tabWindowId := fun _ => 2
        clientPointAtCursor := fun _ => (0, 0), cursorScreenPoint := (0, 0)
        newBufferWindowId := 7, dragBufferWindowId := 7
        dragBufferWindowExists := true, bufferWindowVisible := false }
      (some { sourceTabId := some 3, originalWindowId := 1, currentWindowId := some 2
              originClientX := 10, originClientY := 20, originScreenX := 110
              originScreenY := 120, relativeXDragStart := 5, relativeYDragStart := 6
              originatedFromSingleTabWindow := false, frame := 0
              frameTopHeight := 100, frameLeftWidth := 100 })
      .tabAttached =
      (some { sourceTabId := some 3, originalWindowId := 1, currentWindowId := some 2
              originClientX := 10, originClientY := 20, originScreenX := 110
              originScreenY := 120, relativeXDragStart := 5, relativeYDragStart := 6
              originatedFromSingleTabWindow := false, frame := 0
              frameTopHeight := 100, frameLeftWidth := 100 }, []) :=
  tabAttached_redelivery_noop _ _ rfl rfl rfl

/-! C8: window position applied for an accepted SingleTabWindowMoved -/

/-- C8.  DragStarted fixes `frameLeftWidth`/`frameTopHeight` as
`originScreenX - originClientX - winX` and
`originScreenY - originClientY - winY`; every SingleTabWindowMoved the
store accepts (no pending attach/detach markers, event window equal to the
session's — and the tab's actual — current window) schedules a window move
to `windowX = floor(cursorScreenX - tabX - frameLeftWidth -
relativeXDragStart)` and `windowY = floor(cursorScreenY - tabY -
frameTopHeight - relativeYDragStart)`; the floored x-coordinate is exact
up to rounding, so the grabbed point sits under the cursor. -/
theorem singleTabMoved_window_position (env : Env) (d : DragSourceData) (s : Session)
    (tabX tabY : ℚ) (windowId : Int)
    (hattach : s.attachRequestedWindowId = none)
    (hdetachReq : s.detachRequestedWindowId = none)
    (hdetachTo : s.detachToRequestedWindowId = none)
    (hcur : s.currentWindowId = some windowId)
    (hactual : env.tabWindowId s.sourceTabId = windowId) :
    ((appStep env none (.dragStarted d)).1.map fun s0 => (s0.frameLeftWidth, s0.frameTopHeight)) =
      some (d.originScreenX - d.originClientX - (env.winPosition d.originalWindowId).1,
            d.originScreenY - d.originClientY - (env.winPosition d.originalWindowId).2) ∧
    appStep env (some s) (.singleTabMoved tabX tabY windowId) =
      (some s,
       [.setWindowPosition windowId
          ⌊env.cursorScreenPoint.1 - tabX - s.frameLeftWidth - s.relativeXDragStart⌋
          ⌊env.cursorScreenPoint.2 - tabY - s.frameTopHeight - s.relativeYDragStart⌋,
        .setIgnoreMouseEvents windowId true,
        .setIgnoreMouseEvents windowId false]) ∧
    ((⌊env.cursorScreenPoint.1 - tabX - s.frameLeftWidth - s.relativeXDragStart⌋ : ℚ)
        ≤ env.cursorScreenPoint.1 - tabX - s.frameLeftWidth - s.relativeXDragStart ∧
      env.cursorScreenPoint.1 - tabX - s.frameLeftWidth - s.relativeXDragStart
        < ⌊env.cursorScreenPoint.1 - tabX - s.frameLeftWidth - s.relativeXDragStart⌋ + 1) := by
  refine ⟨?_, ?_, Int.floor_le _, Int.lt_floor_add_one _⟩
  · simp only [appStep]
    cases hsingle : d.originatedFromSingleTabWindow <;>
      simp [hsingle, sessionOfSourceData]
  · simp only [appStep, hattach, hdetachReq, hdetachTo, Option.isSome_none]
    rw [if_neg (by simp), if_neg (by simp), if_neg (by simp),
      if_neg (by rw [hcur, hactual]; simp), if_neg (by rw [hcur]; simp)]

/-- Witness for C8 at a concrete environment, payload and session. -/
theorem singleTabMoved_window_position_witness :
    (((appStep
        { winPosition := fun _ => (30, 40), tabWindowId := fun _ => 2
          clientPointAtCursor := fun _ => (0, 0), cursorScreenPoint := (1000 + 1/2, 600)
          newBufferWindowId := 7, dragBufferWindowId := 7
          dragBufferWindowExists := true, bufferWindowVisible := false }
        none
        (.dragStarted
          { sourceTabId := some 3, originalWindowId := 1, currentWindowId := some 1
            originClientX := 10, originClientY := 20, originScreenX := 110
            originScreenY := 120, relativeXDragStart := 5, relativeYDragStart := 6
            originatedFromSingleTabWindow := false, frame := 0 })).1.map
        fun s0 => (s0.frameLeftWidth, s0.frameTopHeight)) =
      some (110 - 10 - 30, 120 - 20 - 40)) ∧
    appStep
      { winPosition := fun _ => (30, 40), tabWindowId := fun _ => 2
        clientPointAtCursor := fun _ => (0, 0), cursorScreenPoint := (1000 + 1/2, 600)
        newBufferWindowId := 7, dragBufferWindowId := 7
        dragBufferWindowExists := true, bufferWindowVisible := false }
      (some { sourceTabId := some 3, originalWindowId := 1, currentWindowId := some 2
              originClientX := 10, originClientY := 20, originScreenX := 110
              originScreenY := 120, relativeXDragStart := 5, relativeYDragStart := 6
              originatedFromSingleTabWindow := false, frame := 0
              frameTopHeight := 60, frameLeftWidth := 70 })
      (.singleTabMoved 100 200 2) =
      (some { sourceTabId := some 3, originalWindowId := 1, currentWindowId := some 2
              originClientX := 10, originClientY := 20, originScreenX := 110
              originScreenY := 120, relativeXDragStart := 5, relativeYDragStart := 6
              originatedFromSingleTabWindow := false, frame := 0
              frameTopHeight := 60, frameLeftWidth := 70 },
       [.setWindowPosition 2 ⌊(1000 + 1/2 : ℚ) - 100 - 70 - 5⌋ ⌊(600 : ℚ) - 200 - 60 - 6⌋,
        .setIgnoreMouseEvents 2 true,
        .setIgnoreMouseEvents 2 false]) := by
  have h := singleTabMoved_window_position
    { winPosition := fun _ => (30, 40), tabWindowId := fun _ => 2
      clientPointAtCursor := fun _ => (0, 0), cursorScreenPoint := (1000 + 1/2, 600)
      newBufferWindowId := 7, dragBufferWindowId := 7
      dragBufferWindowExists := true, bufferWindowVisible := false }
    { sourceTabId := some 3, originalWindowId := 1, currentWindowId := some 1
      originClientX := 10, originClientY := 20, originScreenX := 110
      originScreenY := 120, relativeXDragStart := 5, relativeYDragStart := 6
      originatedFromSingleTabWindow := false, frame := 0 }
    { sourceTabId := some 3, originalWindowId := 1, currentWindowId := some 2
      originClientX := 10, originClientY := 20, originScreenX := 110
      originScreenY := 120, relativeXDragStart := 5, relativeYDragStart := 6
      originatedFromSingleTabWindow := false, frame := 0
      frameTopHeight := 60, frameLeftWidth := 70 }
    100 200 2 rfl rfl rfl rfl rfl
  exact ⟨h.1, h.2.1⟩

/-! C9: DetachRequested carries no pending-attach/detach guard -/

/-- C9.  With an active session, a DetachRequested event is processed even
when an `attachRequestedWindowId` or `detachToRequestedWindowId` marker is
already present: it records `detachedFromTabX`/`Y`, `detachedFromWindowId`
(the tab's current window) and `detachToRequestedWindowId` (the buffer
window) and schedules the tab's move into the buffer window — whereas
under the same markers the index-change, single-tab-move and mouse-over
handlers all leave the state unchanged and schedule nothing. -/
theorem detachRequested_processes_despite_markers (env : Env) (s : Session)
    (tabX tabY tabX2 tabY2 : ℚ)
    (senderWindowId destinationDisplayIndex destinationFrameIndex movedWindowId : Int)
    (requiresMouseUpdate : Bool) (overWindowId : Int) (overFrameIndex : Option Int)
    (hmark : s.attachRequestedWindowId.isSome ∨ s.detachToRequestedWindowId.isSome) :
    appStep env (some s) (.detachRequested tabX tabY) =
      (some { s with detachedFromTabX := some tabX
                     detachedFromTabY := some tabY
                     detachedFromWindowId := some (env.tabWindowId s.sourceTabId)
                     detachToRequestedWindowId := some env.dragBufferWindowId },
       [.clearDragBufferMark, .moveTabToBufferWindow s.sourceTabId env.dragBufferWindowId]) ∧
    appStep env (some s)
      (.changeWindowDisplayIndex senderWindowId destinationDisplayIndex
        destinationFrameIndex requiresMouseUpdate) = (some s, []) ∧
    appStep env (some s) (.singleTabMoved tabX2 tabY2 movedWindowId) = (some s, []) ∧
    appStep env (some s) (.mouseOverOtherWindowTab overWindowId overFrameIndex) = (some s, []) := by
  refine ⟨rfl, ?_, ?_, ?_⟩
  · simp only [appStep]
    cases hst : s.sourceTabId with
    | none => rfl
    | some tabId => dsimp only; rw [if_pos hmark]
  · simp only [appStep]
    rcases hmark with h | h
    · rw [if_pos h]
    · by_cases h1 : s.attachRequestedWindowId.isSome
      · rw [if_pos h1]
      · rw [if_neg h1]
        by_cases h2 : s.detachRequestedWindowId.isSome
        · rw [if_pos h2]
        · rw [if_neg h2, if_pos h]
  · simp only [appStep]
    cases hst : s.sourceTabId with
    | none => rfl
    | some tabId =>
      dsimp only
      rcases hmark with h | h
      · rw [if_pos h]
      · by_cases h1 : s.attachRequestedWindowId.isSome
        · rw [if_pos h1]
        · rw [if_neg h1, if_pos h]

/-- Witness for C9 at a session with a pending attach marker. -/
theorem detachRequested_processes_despite_markers_witness :
    appStep
      { winPosition := fun _ => (0, 0), tabWindowId := fun _ => 2
        clientPointAtCursor := fun _ => (0, 0), cursorScreenPoint := (0, 0)
        newBufferWindowId := 7, dragBufferWindowId := 9
        dragBufferWindowExists := true, bufferWindowVisible := false }
      (some { sourceTabId := some 3, originalWindowId := 1, currentWindowId := some 2
              originClientX := 10, originClientY := 20, originScreenX := 110
              originScreenY := 120, relativeXDragStart := 5, relativeYDragStart := 6
              originatedFromSingleTabWindow := true, frame := 0
              frameTopHeight := 60, frameLeftWidth := 70
              attachRequestedWindowId := some 4 })
      (.detachRequested 11 12) =
      (some { sourceTabId := some 3, originalWindowId := 1, currentWindowId := some 2
              originClientX := 10, originClientY := 20, originScreenX := 110
              originScreenY := 120, relativeXDragStart := 5, relativeYDragStart := 6
              originatedFromSingleTabWindow := true, frame := 0
              frameTopHeight := 60, frameLeftWidth := 70
              attachRequestedWindowId := some 4
              detachToRequestedWindowId := some 9
              detachedFromWindowId := some 2
              detachedFromTabX := some 11, detachedFromTabY := some 12 },
       [.clearDragBufferMark, .moveTabToBufferWindow (some 3) 9]) :=
  (detachRequested_processes_despite_markers
    { winPosition := fun _ => (0, 0), tabWindowId := fun _ => 2
      clientPointAtCursor := fun _ => (0, 0), cursorScreenPoint := (0, 0)
      newBufferWindowId := 7, dragBufferWindowId := 9
      dragBufferWindowExists := true, bufferWindowVisible := false }
    { sourceTabId := some 3, originalWindowId := 1, currentWindowId := some 2
      originClientX := 10, originClientY := 20, originScreenX := 110
      originScreenY := 120, relativeXDragStart := 5, relativeYDragStart := 6
      originatedFromSingleTabWindow := true, frame := 0
      frameTopHeight := 60, frameLeftWidth := 70
      attachRequestedWindowId := some 4 }
    11 12 0 0 1 2 3 4 false 5 none (Or.inl (by decide))).1

/-! C1: every forwarded display index lies in [0, totalTabCount - 1] -/

/-- The destination index computed by `detectDragIndexPosition` is always
within `[0, totalTabCount - 1]`, for any pointer-derived `tabLeft` and any
widths, provided the page description is sane. -/
theorem detectDragIndexPosition_in_range
    (totalTabCount firstTabDisplayIndex displayedTabCount : Int)
    (parentWidth tabWidth dragTabWidth tabLeft : ℚ)
    (hfirst : 0 ≤ firstTabDisplayIndex)
    (hlast : firstTabDisplayIndex ≤ totalTabCount - 1)
    (hcount : 0 ≤ displayedTabCount) :
    0 ≤ detectDragIndexPosition totalTabCount firstTabDisplayIndex displayedTabCount
        parentWidth tabWidth dragTabWidth tabLeft ∧
      detectDragIndexPosition totalTabCount firstTabDisplayIndex displayedTabCount
        parentWidth tabWidth dragTabWidth tabLeft ≤ totalTabCount - 1 := by
  simp only [detectDragIndexPosition]
  split_ifs <;> constructor <;> omega

/-- A pending page-move timer stores an in-range destination. -/
def pendingInRange (totalTabCount : Int) : Option PendingPageMove → Prop
  | none => True
  | some q => 0 ≤ q.destinationIndex ∧ q.destinationIndex ≤ totalTabCount - 1

/-- A window action carries only in-range display indices. -/
def winActionInRange (totalTabCount : Int) : WinAction → Prop
  | .changeGroupDisplayIndex _ i => 0 ≤ i ∧ i ≤ totalTabCount - 1
  | _ => True

theorem onDragChangeIndex_in_range (now : ℚ) (props : TabsProps) (destinationIndex : Int)
    (pending : Option PendingPageMove)
    (hfirst : 0 ≤ props.firstTabDisplayIndex)
    (hlast : props.firstTabDisplayIndex ≤ props.totalTabCount - 1)
    (hcount : 1 ≤ props.displayedTabCount)
    (hdest0 : 0 ≤ destinationIndex) (hdest1 : destinationIndex ≤ props.totalTabCount - 1)
    (hpend : pendingInRange props.totalTabCount pending) :
    pendingInRange props.totalTabCount
        (onDragChangeIndex now props destinationIndex pending).pending ∧
      ∀ a ∈ (onDragChangeIndex now props destinationIndex pending).actions,
        winActionInRange props.totalTabCount a := by
  rcases pending with _ | q
  all_goals
    first
      | simp only [pendingInRange] at hpend
      | skip
  all_goals
    simp only [onDragChangeIndex, clearDragPageIndexMoveTimeout,
      beginOrContinueTimeoutForDragPageIndexMove]
    split_ifs <;> refine ⟨?_, ?_⟩
  all_goals
    first
      | trivial
      | (simp only [pendingInRange]; exact ⟨hdest0, hdest1⟩)
      | (simp only [pendingInRange]; exact hpend)
      | skip
  all_goals intro a ha
  all_goals
    simp only [List.cons_append, List.nil_append, List.append_nil,
      List.mem_cons, List.not_mem_nil, or_false] at ha
  all_goals
    first
      | exact ha.elim
      | (rcases ha with rfl | rfl <;> simp only [winActionInRange] <;>
          first | trivial | omega)
      | (rcases ha with rfl <;> simp only [winActionInRange] <;>
          first | trivial | omega)

theorem fireDragPageTimeout_in_range (now : ℚ) (totalTabCount : Int)
    (pending : Option PendingPageMove) (hpend : pendingInRange totalTabCount pending) :
    pendingInRange totalTabCount (fireDragPageTimeout now pending).1 ∧
      ∀ a ∈ (fireDragPageTimeout now pending).2, winActionInRange totalTabCount a := by
  rcases pending with _ | q
  · exact ⟨trivial, by simp [fireDragPageTimeout]⟩
  · simp only [pendingInRange] at hpend
    simp only [fireDragPageTimeout]
    split_ifs
    · refine ⟨trivial, fun a ha => ?_⟩
      simp only [List.mem_cons, List.not_mem_nil, or_false] at ha
      rcases ha with rfl | rfl <;> simp only [winActionInRange] <;>
        first | trivial | omega
    · refine ⟨?_, fun a ha => ?_⟩
      · simp only [pendingInRange]
        exact hpend
      · simp only [List.not_mem_nil] at ha

theorem coordRun_in_range (page : PageLayout)
    (hfirst : 0 ≤ page.firstTabDisplayIndex)
    (hlast : page.firstTabDisplayIndex ≤ page.totalTabCount - 1)
    (hcount : 1 ≤ page.displayedTabCount)
    (evs : List CoordEvent) :
    ∀ pending, pendingInRange page.totalTabCount pending →
      pendingInRange page.totalTabCount (coordRun page pending evs).1 ∧
        ∀ a ∈ (coordRun page pending evs).2, winActionInRange page.totalTabCount a := by
  induction evs with
  | nil =>
      intro pending hpend
      exact ⟨hpend, by simp [coordRun]⟩
  | cons ev rest ih =>
      intro pending hpend
      have hstep : pendingInRange page.totalTabCount (coordStep page pending ev).1 ∧
          ∀ a ∈ (coordStep page pending ev).2, winActionInRange page.totalTabCount a := by
        cases ev with
        | pointerMove now displayIndex tabWidth dragTabWidth tabLeft =>
            have hdet := detectDragIndexPosition_in_range page.totalTabCount
              page.firstTabDisplayIndex page.displayedTabCount page.parentWidth
              tabWidth dragTabWidth tabLeft hfirst hlast (by omega)
            exact onDragChangeIndex_in_range now _ _ pending hfirst hlast hcount
              hdet.1 hdet.2 hpend
        | timerFires now => exact fireDragPageTimeout_in_range now _ pending hpend
      have hrest := ih (coordStep page pending ev).1 hstep.1
      refine ⟨hrest.1, fun a ha => ?_⟩
      simp only [coordRun, List.mem_append] at ha
      rcases ha with ha | ha
      · exact hstep.2 a ha
      · exact hrest.2 a ha

/-- C1.  For every page description with `0 ≤ firstTabDisplayIndex ≤
totalTabCount - 1` and at least one displayed tab, and every sequence of
pointer moves and page-move timer events — each destination index produced
by `detectDragIndexPosition` for any pointer position and any tab widths —
every display index the drag controller forwards to the store
(`tabDragChangeGroupDisplayIndex`, immediately or from the page-move
timer) lies within `[0, totalTabCount - 1]`. -/
theorem forwarded_display_index_in_range (page : PageLayout)
    (hfirst : 0 ≤ page.firstTabDisplayIndex)
    (hlast : page.firstTabDisplayIndex ≤ page.totalTabCount - 1)
    (hcount : 1 ≤ page.displayedTabCount)
    (evs : List CoordEvent) (rmu : Bool) (i : Int)
    (hmem : WinAction.changeGroupDisplayIndex rmu i ∈ (coordRun page none evs).2) :
    0 ≤ i ∧ i ≤ page.totalTabCount - 1 :=
  (coordRun_in_range page hfirst hlast hcount evs none trivial).2
    (WinAction.changeGroupDisplayIndex rmu i) hmem

/-- Witness for C1: a pointer far past the left page-move threshold on the
first page of nine tabs forwards index 0. -/
theorem forwarded_display_index_in_range_witness :
    (0 : Int) ≤ 0 ∧ (0 : Int) ≤ 9 - 1 :=
  forwarded_display_index_in_range
    { firstTabDisplayIndex := 0, displayedTabCount := 5, totalTabCount := 9
      tabPageIndex := 0, parentWidth := 300 }
    (by decide) (by decide) (by decide)
    [CoordEvent.pointerMove 0 2 10 10 (-100)] false 0
    (by norm_num [coordRun, coordStep, detectDragIndexPosition, onDragChangeIndex,
      clearDragPageIndexMoveTimeout, DRAG_PAGEMOVE_PX_THRESHOLD])

/-! C7 helpers: detach-confirmation timer behaviour -/

/-- An event that is a mousemove whose (translated) pointer lies outside
the strip bounds for the given vertical threshold. -/
def isOutsideMove (cfg : CtrlCfg) (threshold : ℚ) : CtrlEvent → Prop
  | .move e _ => isOutsideBounds cfg threshold
      (translateEventFromSendMouseMoveInput e).clientX
      (translateEventFromSendMouseMoveInput e).clientY
  | _ => False

/-- Controller state while the pointer has stayed outside: no detach
requested yet, sort processing not suspended, threshold unchanged, and the
timeout flag agrees with the armed timer. -/
def armingState (c0 c : Ctrl) : Prop :=
  c.hasRequestedDetach = false ∧ c.suspendOrderChangeUntilUpdate = false ∧
  c.draggingDetachThreshold = c0.draggingDetachThreshold ∧
  ((c.draggingDetachTimeout = false ∧ c.pendingDetachTabLeft = none) ∨
   (c.draggingDetachTimeout = true ∧ c.pendingDetachTabLeft.isSome = true))

theorem ctrlRun_append (cfg : CtrlCfg) (l1 l2 : List CtrlEvent) :
    ∀ c, ctrlRun cfg c (l1 ++ l2) =
      ((ctrlRun cfg (ctrlRun cfg c l1).1 l2).1,
       (ctrlRun cfg c l1).2 ++ (ctrlRun cfg (ctrlRun cfg c l1).1 l2).2) := by
  induction l1 with
  | nil => intro c; simp [ctrlRun]
  | cons ev l1 ih =>
      intro c
      simp only [List.cons_append, ctrlRun, List.append_eq, ih (ctrlStep cfg c ev).1,
        List.append_assoc]

theorem detachIntentCount_append (l1 l2 : List Intent) :
    detachIntentCount (l1 ++ l2) = detachIntentCount l1 + detachIntentCount l2 := by
  simp [detachIntentCount, List.filter_append]

/-- A mousemove outside the bounds only arms (or keeps armed) the
detach-confirmation timer: no intent is emitted. -/
theorem ctrlStep_outside (cfg : CtrlCfg) (c0 c : Ctrl) (ev : CtrlEvent)
    (hp : cfg.dragProcessMoves = true) (hs : cfg.dragSingleTab = false)
    (hd : cfg.dragCanDetach = true)
    (hout : isOutsideMove cfg c0.draggingDetachThreshold ev)
    (hst : armingState c0 c) :
    (ctrlStep cfg c ev).2 = [] ∧ armingState c0 (ctrlStep cfg c ev).1 ∧
      (ctrlStep cfg c ev).1.draggingDetachTimeout = true ∧
      (ctrlStep cfg c ev).1.pendingDetachTabLeft.isSome = true := by
  obtain ⟨hreq, hsus, hthr, hcase⟩ := hst
  cases ev with
  | fireDetach => exact absurd hout (by simp [isOutsideMove])
  | indexUpdated => exact absurd hout (by simp [isOutsideMove])
  | move e p =>
      simp only [isOutsideMove] at hout
      simp only [ctrlStep, onTabDraggingMouseMove, onTabDraggingMouseMoveTranslated, hp, hs,
        hreq, Bool.not_false, if_true, detectSortChange, hsus, Bool.false_eq_true, if_false]
      rw [if_pos ⟨hd, by rw [hthr]; exact hout⟩]
      rcases hcase with ⟨ht2, hpd2⟩ | ⟨ht2, hpd2⟩ <;> split_ifs <;>
        simp_all [armingState]

/-- Running any number of outside mousemoves emits no intent, and leaves
the timer armed once at least one such move has been processed. -/
theorem ctrlRun_outside (cfg : CtrlCfg) (c0 : Ctrl)
    (hp : cfg.dragProcessMoves = true) (hs : cfg.dragSingleTab = false)
    (hd : cfg.dragCanDetach = true) :
    ∀ outs : List CtrlEvent,
      (∀ ev ∈ outs, isOutsideMove cfg c0.draggingDetachThreshold ev) →
      ∀ c, armingState c0 c →
        (ctrlRun cfg c outs).2 = [] ∧ armingState c0 (ctrlRun cfg c outs).1 ∧
          (outs ≠ [] → (ctrlRun cfg c outs).1.draggingDetachTimeout = true ∧
            (ctrlRun cfg c outs).1.pendingDetachTabLeft.isSome = true) := by
  intro outs
  induction outs with
  | nil =>
      intro _ c hc
      exact ⟨rfl, hc, fun h => absurd rfl h⟩
  | cons ev rest ih =>
      intro houts c hc
      have hstep := ctrlStep_outside cfg c0 c ev hp hs hd (houts ev (by simp)) hc
      have hrest := ih (fun ev2 hev2 => houts ev2 (by simp [hev2])) (ctrlStep cfg c ev).1
        hstep.2.1
      refine ⟨?_, ?_, fun _ => ?_⟩
      · simp only [ctrlRun, hstep.1, hrest.1, List.nil_append]
      · simp only [ctrlRun]
        exact hrest.2.1
      · rcases Decidable.em (rest = []) with rfl | hne
        · simp only [ctrlRun]
          exact ⟨hstep.2.2.1, hstep.2.2.2⟩
        · simp only [ctrlRun]
          exact hrest.2.2 hne

/-- After the detach request has been emitted (`hasRequestedDetach` set,
timer spent), no later event of any kind emits any further intent. -/
theorem ctrlRun_after_detach (cfg : CtrlCfg)
    (hp : cfg.dragProcessMoves = true) (hs : cfg.dragSingleTab = false) :
    ∀ (rest : List CtrlEvent) (c : Ctrl), c.hasRequestedDetach = true →
      c.pendingDetachTabLeft = none → (ctrlRun cfg c rest).2 = [] := by
  intro rest
  induction rest with
  | nil => intro c _ _; rfl
  | cons ev r ih =>
      intro c h1 h2
      cases ev with
      | move e p =>
          have hstep : ctrlStep cfg c (.move e p) = (c, []) := by
            simp [ctrlStep, onTabDraggingMouseMove, onTabDraggingMouseMoveTranslated,
              hp, hs, h1]
          simp only [ctrlRun, hstep, List.nil_append]
          exact ih c h1 h2
      | fireDetach =>
          have hstep : ctrlStep cfg c .fireDetach = (c, []) := by
            simp [ctrlStep, fireDetachTimer, h2]
          simp only [ctrlRun, hstep, List.nil_append]
          exact ih c h1 h2
      | indexUpdated =>
          simp only [ctrlRun, ctrlStep, List.nil_append]
          exact ih _ h1 h2

/-- A mousemove back inside the bounds cancels the armed timer, emits only
an index-change request (never a detach intent), and widens the detach
threshold exactly when the detected destination differs from the tab's
display index. -/
theorem ctrlStep_inside (cfg : CtrlCfg) (c0 c : Ctrl) (eIn : MouseEvt) (pIn : Bool)
    (hp : cfg.dragProcessMoves = true) (hs : cfg.dragSingleTab = false)
    (hd : cfg.dragCanDetach = true)
    (hin : ¬ isOutsideBounds cfg c0.draggingDetachThreshold
      (translateEventFromSendMouseMoveInput eIn).clientX
      (translateEventFromSendMouseMoveInput eIn).clientY)
    (hst : armingState c0 c) :
    detachIntentCount (ctrlStep cfg c (.move eIn pIn)).2 = 0 ∧
    (ctrlStep cfg c (.move eIn pIn)).1.draggingDetachTimeout = false ∧
    (ctrlStep cfg c (.move eIn pIn)).1.pendingDetachTabLeft = none ∧
    (cfg.displayIndex ≠ detectDragIndexPosition cfg.totalTabCount cfg.firstTabDisplayIndex
        cfg.displayedTabCount cfg.rect.width (cfg.nonDraggingTabWidth.getD cfg.draggingTabWidth)
        cfg.draggingTabWidth
        ((translateEventFromSendMouseMoveInput eIn).clientX - cfg.rect.left -
          cfg.relativeXDragStart) →
      (ctrlStep cfg c (.move eIn pIn)).1.draggingDetachThreshold =
        DRAG_DETACH_PX_THRESHOLD_POSTSORT) := by
  obtain ⟨hreq, hsus, hthr, hcase⟩ := hst
  simp only [ctrlStep, onTabDraggingMouseMove, onTabDraggingMouseMoveTranslated, hp, hs,
    hreq, Bool.not_false, if_true, detectSortChange, hsus, Bool.false_eq_true, if_false]
  rw [if_neg (by rw [hthr]; exact fun h => hin h.2)]
  rcases hcase with ⟨ht2, hpd2⟩ | ⟨ht2, hpd2⟩ <;> split_ifs <;>
    simp_all [detachIntentCount]

/-! C7: the detach-requested intent is emitted exactly once -/

/-- C7.  While dragging an unpinned tab (detach permitted, multi-tab
window): a pointer that stays outside the strip's bounds — horizontally by
more than `DRAG_DETACH_PX_THRESHOLD_X = 60` px, or vertically by more than
the current threshold, which starts at
`DRAG_DETACH_PX_THRESHOLD_INITIAL = 44` px and is widened to
`DRAG_DETACH_PX_THRESHOLD_POSTSORT = 80` px by a request to reorder to a
different index — for the full (zero-delay,
`DRAG_DETACH_MS_TIME_BUFFER = 0`) confirmation timer causes exactly one
detach-requested intent across the whole remaining trace; if the pointer
returns inside the bounds before the timer fires, the timer is cancelled
and zero detach intents are emitted, including by a subsequent timer
fire. -/
theorem detach_threshold_intents (cfg : CtrlCfg) (c0 : Ctrl)
    (hp : cfg.dragProcessMoves = true) (hs : cfg.dragSingleTab = false)
    (hd : cfg.dragCanDetach = true)
    (ht : c0.draggingDetachTimeout = false) (hpend : c0.pendingDetachTabLeft = none)
    (hreq : c0.hasRequestedDetach = false) (hsus : c0.suspendOrderChangeUntilUpdate = false)
    (outs : List CtrlEvent) (hne : outs ≠ [])
    (houts : ∀ ev ∈ outs, isOutsideMove cfg c0.draggingDetachThreshold ev) :
    (∀ rest, detachIntentCount
        (ctrlRun cfg c0 (outs ++ CtrlEvent.fireDetach :: rest)).2 = 1) ∧
    (∀ eIn pIn, ¬ isOutsideBounds cfg c0.draggingDetachThreshold
        (translateEventFromSendMouseMoveInput eIn).clientX
        (translateEventFromSendMouseMoveInput eIn).clientY →
      detachIntentCount (ctrlRun cfg c0 (outs ++ [CtrlEvent.move eIn pIn])).2 = 0 ∧
      (ctrlRun cfg c0 (outs ++ [CtrlEvent.move eIn pIn])).1.draggingDetachTimeout = false ∧
      (ctrlRun cfg c0 (outs ++ [CtrlEvent.move eIn pIn])).1.pendingDetachTabLeft = none ∧
      detachIntentCount
        (ctrlRun cfg c0 (outs ++ [CtrlEvent.move eIn pIn, CtrlEvent.fireDetach])).2 = 0) ∧
    DRAG_DETACH_PX_THRESHOLD_X = 60 ∧ DRAG_DETACH_PX_THRESHOLD_INITIAL = 44 ∧
    DRAG_DETACH_PX_THRESHOLD_POSTSORT = 80 ∧ DRAG_DETACH_MS_TIME_BUFFER = 0 ∧
    initialCtrl.draggingDetachThreshold = DRAG_DETACH_PX_THRESHOLD_INITIAL := by
  have harm : armingState c0 c0 := ⟨hreq, hsus, rfl, Or.inl ⟨ht, hpend⟩⟩
  have houtrun := ctrlRun_outside cfg c0 hp hs hd outs houts c0 harm
  obtain ⟨hints, harm1, harmed⟩ := houtrun
  obtain ⟨htim1, hpend1⟩ := harmed hne
  obtain ⟨tl, htl⟩ := Option.isSome_iff_exists.mp hpend1
  refine ⟨?_, ?_, rfl, rfl, rfl, rfl, rfl⟩
  · intro rest
    rw [ctrlRun_append cfg outs (CtrlEvent.fireDetach :: rest) c0]
    have hfire : ctrlStep cfg (ctrlRun cfg c0 outs).1 CtrlEvent.fireDetach =
        ({ (ctrlRun cfg c0 outs).1 with
             hasRequestedDetach := true
             pendingDetachTabLeft := none },
         [Intent.requestDetach tl cfg.rect.top]) := by
      simp [ctrlStep, fireDetachTimer, htl]
    have hrest := ctrlRun_after_detach cfg hp hs rest
      { (ctrlRun cfg c0 outs).1 with
          hasRequestedDetach := true
          pendingDetachTabLeft := none } rfl rfl
    simp only [ctrlRun, hfire, hints, detachIntentCount_append, hrest]
    rfl
  · intro eIn pIn hin
    have hstep := ctrlStep_inside cfg c0 (ctrlRun cfg c0 outs).1 eIn pIn hp hs hd hin harm1
    have hmoved := ctrlRun_append cfg outs [CtrlEvent.move eIn pIn] c0
    have hz : detachIntentCount (ctrlRun cfg c0 (outs ++ [CtrlEvent.move eIn pIn])).2 = 0 := by
      rw [hmoved]
      dsimp only
      rw [detachIntentCount_append, hints]
      simp only [ctrlRun, List.append_nil]
      rw [hstep.1]
      rfl
    have hp2 : (ctrlRun cfg c0 (outs ++ [CtrlEvent.move eIn pIn])).1.pendingDetachTabLeft
        = none := by
      rw [hmoved]
      simp only [ctrlRun]
      exact hstep.2.2.1
    refine ⟨hz, ?_, hp2, ?_⟩
    · rw [hmoved]
      simp only [ctrlRun]
      exact hstep.2.1
    · have hfire2 : ctrlRun cfg (ctrlRun cfg c0 (outs ++ [CtrlEvent.move eIn pIn])).1
          [CtrlEvent.fireDetach] =
          ((ctrlRun cfg c0 (outs ++ [CtrlEvent.move eIn pIn])).1, []) := by
        simp [ctrlRun, ctrlStep, fireDetachTimer, hp2]
      rw [show outs ++ [CtrlEvent.move eIn pIn, CtrlEvent.fireDetach] =
        (outs ++ [CtrlEvent.move eIn pIn]) ++ [CtrlEvent.fireDetach] by simp]
      rw [ctrlRun_append cfg (outs ++ [CtrlEvent.move eIn pIn]) [CtrlEvent.fireDetach] c0]
      dsimp only
      rw [hfire2]
      dsimp only
      rw [List.append_nil, hz]

/-- Concrete configuration for the C7 witness: strip bounds top 100 and
height 30, unpinned multi-tab window. -/
def witnessDetachCfg : CtrlCfg :=
  { dragProcessMoves := true, dragSingleTab := false, dragCanDetach := true
    relativeXDragStart := 0, displayIndex := 0, firstTabDisplayIndex := 0
    displayedTabCount := 5, totalTabCount := 5
    rect := { left := 0, top := 100, width := 300, height := 30, windowWidth := 500 }
    draggingTabWidth := 100, nonDraggingTabWidth := none, singleTabPosition := (0, 0) }

/-- A genuine pointer event 100 px below the strip (clientY 200, beyond
the 44 px initial threshold below top + height = 130). -/
def witnessOutsideEvt : MouseEvt :=
  { x := 250, y := 200, screenX := 250, screenY := 200, clientX := 250, clientY := 200 }

/-- A genuine pointer event back inside the strip bounds. -/
def witnessInsideEvt : MouseEvt :=
  { x := 250, y := 110, screenX := 250, screenY := 110, clientX := 250, clientY := 110 }

/-- Witness for C7: one outside move then the timer firing emits exactly
one detach intent; returning inside instead cancels the timer and emits
zero, also across a later fire. -/
theorem detach_threshold_intents_witness :
    detachIntentCount (ctrlRun witnessDetachCfg initialCtrl
        ([CtrlEvent.move witnessOutsideEvt false] ++ CtrlEvent.fireDetach :: [])).2 = 1 ∧
    detachIntentCount (ctrlRun witnessDetachCfg initialCtrl
        ([CtrlEvent.move witnessOutsideEvt false] ++
          [CtrlEvent.move witnessInsideEvt false])).2 = 0 ∧
    (ctrlRun witnessDetachCfg initialCtrl
        ([CtrlEvent.move witnessOutsideEvt false] ++
          [CtrlEvent.move witnessInsideEvt false])).1.draggingDetachTimeout = false ∧
    (ctrlRun witnessDetachCfg initialCtrl
        ([CtrlEvent.move witnessOutsideEvt false] ++
          [CtrlEvent.move witnessInsideEvt false])).1.pendingDetachTabLeft = none ∧
    detachIntentCount (ctrlRun witnessDetachCfg initialCtrl
        ([CtrlEvent.move witnessOutsideEvt false] ++
          [CtrlEvent.move witnessInsideEvt false, CtrlEvent.fireDetach])).2 = 0 := by
  have h := detach_threshold_intents witnessDetachCfg initialCtrl rfl rfl rfl rfl rfl rfl rfl
    [CtrlEvent.move witnessOutsideEvt false] (by simp)
    (by intro ev hev
        simp only [List.mem_singleton] at hev
        subst hev
        norm_num [isOutsideMove, isOutsideBounds, translateEventFromSendMouseMoveInput,
          witnessDetachCfg, witnessOutsideEvt, initialCtrl,
          DRAG_DETACH_PX_THRESHOLD_INITIAL, DRAG_DETACH_PX_THRESHOLD_X])
  have h2 := h.2.1 witnessInsideEvt false
    (by norm_num [isOutsideBounds, translateEventFromSendMouseMoveInput, witnessDetachCfg,
      witnessInsideEvt, initialCtrl, DRAG_DETACH_PX_THRESHOLD_INITIAL,
      DRAG_DETACH_PX_THRESHOLD_X])
  exact ⟨h.1 [], h2.1, h2.2.1, h2.2.2.1, h2.2.2.2⟩

/-! C6: the page-change debounce -/

/-- C6.  With `firstTabDisplayIndex = 0` and `displayedTabCount = 5`, a
requested destination index of 7 immediately dispatches a move to display
index 4 (the page boundary), marks pausing for the next page, and starts a
pending page change that fires `DRAG_PAGEMOVE_MS_TIME_BUFFER = 1000` ms
later; the timer does not fire before those 1000 ms have elapsed; a second
request for destination index 3 (within the page) arriving while the timer
is pending cancels the pending page change and dispatches the move to
index 3 immediately; afterwards no pending page change remains, so no page
transition occurs. -/
theorem pageChange_debounce (t u tMid uLater : ℚ)
    (hu : u < t + DRAG_PAGEMOVE_MS_TIME_BUFFER) :
    onDragChangeIndex t
        { displayIndex := 2, firstTabDisplayIndex := 0, displayedTabCount := 5
          totalTabCount := 8, tabPageIndex := 0, parentWidth := 300 } 7 none =
      { shouldPauseDraggingUntilUpdate := true
        pending := some { destinationIndex := 7, deadline := t + DRAG_PAGEMOVE_MS_TIME_BUFFER }
        actions := [WinAction.changeGroupDisplayIndex false 4,
                    WinAction.pausingForPageChange 1] } ∧
    DRAG_PAGEMOVE_MS_TIME_BUFFER = 1000 ∧
    fireDragPageTimeout u
        (some { destinationIndex := 7, deadline := t + DRAG_PAGEMOVE_MS_TIME_BUFFER }) =
      (some { destinationIndex := 7, deadline := t + DRAG_PAGEMOVE_MS_TIME_BUFFER }, []) ∧
    onDragChangeIndex tMid
        { displayIndex := 4, firstTabDisplayIndex := 0, displayedTabCount := 5
          totalTabCount := 8, tabPageIndex := 0, parentWidth := 300 } 3
        (some { destinationIndex := 7, deadline := t + DRAG_PAGEMOVE_MS_TIME_BUFFER }) =
      { shouldPauseDraggingUntilUpdate := true
        pending := none
        actions := [WinAction.notPausingForPageChange,
                    WinAction.changeGroupDisplayIndex false 3] } ∧
    fireDragPageTimeout uLater none = (none, []) := by
  refine ⟨?_, rfl, ?_, ?_, rfl⟩
  · norm_num [onDragChangeIndex, beginOrContinueTimeoutForDragPageIndexMove]
  · simp only [fireDragPageTimeout]
    rw [if_neg (not_le.mpr hu)]
  · norm_num [onDragChangeIndex, clearDragPageIndexMoveTimeout]

/-- Witness for C6 at concrete times. -/
theorem pageChange_debounce_witness :
    onDragChangeIndex 0
        { displayIndex := 2, firstTabDisplayIndex := 0, displayedTabCount := 5
          totalTabCount := 8, tabPageIndex := 0, parentWidth := 300 } 7 none =
      { shouldPauseDraggingUntilUpdate := true
        pending := some { destinationIndex := 7, deadline := 0 + DRAG_PAGEMOVE_MS_TIME_BUFFER }
        actions := [WinAction.changeGroupDisplayIndex false 4,
                    WinAction.pausingForPageChange 1] } ∧
    fireDragPageTimeout 999
        (some { destinationIndex := 7, deadline := 0 + DRAG_PAGEMOVE_MS_TIME_BUFFER }) =
      (some { destinationIndex := 7, deadline := 0 + DRAG_PAGEMOVE_MS_TIME_BUFFER }, []) ∧
    onDragChangeIndex 500
        { displayIndex := 4, firstTabDisplayIndex := 0, displayedTabCount := 5
          totalTabCount := 8, tabPageIndex := 0, parentWidth := 300 } 3
        (some { destinationIndex := 7, deadline := 0 + DRAG_PAGEMOVE_MS_TIME_BUFFER }) =
      { shouldPauseDraggingUntilUpdate := true
        pending := none
        actions := [WinAction.notPausingForPageChange,
                    WinAction.changeGroupDisplayIndex false 3] } := by
  have h := pageChange_debounce 0 999 500 0
    (by norm_num [DRAG_PAGEMOVE_MS_TIME_BUFFER])
  exact ⟨h.1, h.2.2.1, h.2.2.2.1⟩

/-! C10: mousemove reinterpretation of forwarded events -/

/-- C10.  Every mousemove processed by a dragging tab's handler whose `x`
is exactly 1 and `y` exactly 99 is reinterpreted as a synthetic forwarded
event (client coordinates replaced by screen coordinates) before any drag
computation — the handler acts on the translated event — every other event
is used unchanged, and a genuine pointer event (where `x`/`y` alias
`clientX`/`clientY`) at exactly (1, 99) is also reinterpreted. -/
theorem mouseMove_translate_forwarded (e : MouseEvt) :
    (e.x = 1 ∧ e.y = 99 →
      translateEventFromSendMouseMoveInput e =
        { clientX := e.screenX, clientY := e.screenY }) ∧
    (¬(e.x = 1 ∧ e.y = 99) →
      translateEventFromSendMouseMoveInput e =
        { clientX := e.clientX, clientY := e.clientY }) ∧
    (∀ cfg c p, onTabDraggingMouseMove cfg c e p =
      onTabDraggingMouseMoveTranslated cfg c (translateEventFromSendMouseMoveInput e) p) ∧
    (e.x = e.clientX → e.y = e.clientY → e.clientX = 1 → e.clientY = 99 →
      translateEventFromSendMouseMoveInput e =
        { clientX := e.screenX, clientY := e.screenY }) := by
  refine ⟨fun h => ?_, fun h => ?_, fun _ _ _ => rfl, fun hx hy h1 h99 => ?_⟩
  · rw [translateEventFromSendMouseMoveInput, if_pos h]
  · rw [translateEventFromSendMouseMoveInput, if_neg h]
  · rw [translateEventFromSendMouseMoveInput, if_pos ⟨hx.trans h1, hy.trans h99⟩]

/-- Witness for C10: a genuine event at (1, 99) is reinterpreted, an event
elsewhere is not. -/
theorem mouseMove_translate_forwarded_witness :
    translateEventFromSendMouseMoveInput
        { x := 1, y := 99, screenX := 500, screenY := 600, clientX := 1, clientY := 99 } =
      { clientX := 500, clientY := 600 } ∧
    translateEventFromSendMouseMoveInput
        { x := 2, y := 99, screenX := 500, screenY := 600, clientX := 2, clientY := 99 } =
      { clientX := 2, clientY := 99 } :=
  ⟨(mouseMove_translate_forwarded _).1 ⟨rfl, rfl⟩,
   (mouseMove_translate_forwarded _).2.1 (by decide)⟩

end TabDragging
